import Mathlib

/-!
Verification development for the `nenastupi` company-resolution engine
(`app/services/lookup.py`, `app/services/sources/fns.py`, `app/services/cache.py`).

The Python code is shallowly embedded: pure helpers become Lean functions on
`String`/`List Char`, floats become `ℚ`, dict rows become structures with
`Option` fields, and the effectful lookup pipeline becomes explicit
state-passing over a `St` record (cache contents plus a trace of external
calls), with the unreliable outside world (registry HTTP adapters, web search,
reasoning adapter, cache backend health) supplied as an `Env` of oracles.

Modelling conventions, stated once:
* Python string truthiness (`if s:`) is `truthy`: `None` and `""` are falsy.
* `str.lower()` is modelled on the ASCII and Cyrillic ranges the code uses.
* `str.strip()` strips `Char.isWhitespace` characters.
* `_cache_key` hashes with SHA-256; the hex digest is modelled as the identity
  on the hashed string (SHA-256 is collision-free for our purposes), so a key
  is the pair (namespace, hashed value).
* Python regexes are translated to explicit scanners over `List Char`;
  `\w` is modelled as ASCII alphanumeric, underscore, or Cyrillic letters.
-/

namespace Nenastupi

/-! ### Python string primitives -/

/-- Models Python `str.lower()` on the ASCII `A`-`Z` and Cyrillic `А`-`Я`/`Ё`
ranges (the only ranges the code's inputs use). -/
def lowerChar (c : Char) : Char :=
  if 'A' ≤ c && c ≤ 'Z' then Char.ofNat (c.toNat + 32)
  else if 'А' ≤ c && c ≤ 'Я' then Char.ofNat (c.toNat + 32)
  else if c = 'Ё' then 'ё'
  else c

/-- Models Python `str.lower()`. -/
def pyLowerStr (s : String) : String := String.mk (s.data.map lowerChar)

/-- Models Python `str.strip()` (strip leading and trailing whitespace). -/
def stripChars (s : List Char) : List Char :=
  ((s.dropWhile Char.isWhitespace).reverse.dropWhile Char.isWhitespace).reverse

/-- Models Python `str.strip()` on `String`. -/
def pyStrip (s : String) : String := String.mk (stripChars s.data)

/-- Models Python truthiness of an optional string: `None` and `""` are falsy. -/
def truthy : Option String → Bool
  | none => false
  | some s => s ≠ ""

/-- Models Python `a or b` on optional strings (falsy `a` falls through). -/
def pyOr (a b : Option String) : Option String := if truthy a then a else b

/-- Models Python `s or ""` (also `dict.get(k) or ""`): `None` and `""` both
give `""`. -/
def orEmpty (a : Option String) : String := a.getD ""

/-- Models Python `str.startswith` / an anchored `re.search("^...")`. -/
def strStartsWith (s p : String) : Bool := p.data.isPrefixOf s.data

/-- Models Python `"/" in value` (substring containment of one character). -/
def strContainsChar (s : String) (c : Char) : Bool := s.data.contains c

/-- Maximal runs of non-whitespace characters (helper for whitespace
collapsing; the accumulator holds the current run reversed). -/
def nonWsRunsAux : List Char → List Char → List (List Char)
  | [], acc => if acc = [] then [] else [acc.reverse]
  | c :: cs, acc =>
    if c.isWhitespace then
      if acc = [] then nonWsRunsAux cs []
      else acc.reverse :: nonWsRunsAux cs []
    else nonWsRunsAux cs (c :: acc)

/-- Joins character runs with single spaces. -/
def joinSpace : List (List Char) → List Char
  | [] => []
  | [w] => w
  | w :: ws => w ++ ' ' :: joinSpace ws

/-- Models `re.sub(r"\s+", " ", text).strip()`: collapse whitespace runs to a
single space and strip the ends. -/
def pyWsNormalize (s : String) : String :=
  String.mk (joinSpace (nonWsRunsAux s.data []))

/-- Models Python string slicing `s[:n]` (by code point). -/
def strTake (s : String) (n : Nat) : String := String.mk (s.data.take n)

/-- Models Python `sep.join(items)`. -/
def pyJoin (sep : String) : List String → String
  | [] => ""
  | [x] => x
  | x :: rest => x ++ sep ++ pyJoin sep rest

/-! ### Validator (`_validate_*`, `_valid_company_number`, `_classify`) -/

/-- Numeric value of an ASCII digit character. -/
def digitVal (c : Char) : Nat := c.toNat - '0'.toNat

/-- Models the regex `^\d{n}$`: the string is exactly `n` ASCII digits. -/
def digitsLen (s : String) (n : Nat) : Bool :=
  s.length == n && s.data.all Char.isDigit

/-- Models the regex `^\d{lo,hi}$`. -/
def digitsLenBetween (s : String) (lo hi : Nat) : Bool :=
  lo ≤ s.length && s.length ≤ hi && s.data.all Char.isDigit

/-- Interprets a digit list as a natural number (Python `int(s)`). -/
def natOfDigits (ds : List Char) : Nat :=
  ds.foldl (fun a c => 10 * a + digitVal c) 0

/-- `_validate_inn10`: 10-digit INN weighted checksum. -/
def validate_inn10 (inn : String) : Bool :=
  if digitsLen inn 10 then
    let n := inn.data.map digitVal
    (2 * n.getD 0 0 + 4 * n.getD 1 0 + 10 * n.getD 2 0 + 3 * n.getD 3 0 +
     5 * n.getD 4 0 + 9 * n.getD 5 0 + 4 * n.getD 6 0 + 6 * n.getD 7 0 +
     8 * n.getD 8 0) % 11 % 10 == n.getD 9 0
  else false

/-- `_validate_inn12`: 12-digit INN, two weighted checksums. -/
def validate_inn12 (inn : String) : Bool :=
  if digitsLen inn 12 then
    let n := inn.data.map digitVal
    let checksum1 := (7 * n.getD 0 0 + 2 * n.getD 1 0 + 4 * n.getD 2 0 +
      10 * n.getD 3 0 + 3 * n.getD 4 0 + 5 * n.getD 5 0 + 9 * n.getD 6 0 +
      4 * n.getD 7 0 + 6 * n.getD 8 0 + 8 * n.getD 9 0) % 11 % 10
    let checksum2 := (3 * n.getD 0 0 + 7 * n.getD 1 0 + 2 * n.getD 2 0 +
      4 * n.getD 3 0 + 10 * n.getD 4 0 + 3 * n.getD 5 0 + 5 * n.getD 6 0 +
      9 * n.getD 7 0 + 4 * n.getD 8 0 + 6 * n.getD 9 0 + 8 * n.getD 10 0) % 11 % 10
    checksum1 == n.getD 10 0 && checksum2 == n.getD 11 0
  else false

/-- `_validate_ogrn`: 13-digit OGRN, first 12 digits as a number mod 11 mod 10. -/
def validate_ogrn (ogrn : String) : Bool :=
  if digitsLen ogrn 13 then
    natOfDigits (ogrn.data.take 12) % 11 % 10 == digitVal (ogrn.data.getD 12 '0')
  else false

/-- `_validate_ogrnip`: 15-digit OGRNIP, first 14 digits mod 13 mod 10. -/
def validate_ogrnip (ogrn : String) : Bool :=
  if digitsLen ogrn 15 then
    natOfDigits (ogrn.data.take 14) % 13 % 10 == digitVal (ogrn.data.getD 14 '0')
  else false

/-- `_valid_company_number`: dispatch on length. -/
def valid_company_number (value : String) : Bool :=
  if value = "" then false
  else if digitsLen value 10 then validate_inn10 value
  else if digitsLen value 12 then validate_inn12 value
  else if digitsLen value 13 then validate_ogrn value
  else if digitsLen value 15 then validate_ogrnip value
  else false

/-- `_is_url`: scheme prefix, `www.` prefix, or a path separator. -/
def is_url (query : String) : Bool :=
  let value := pyStrip query
  if value = "" then false
  else if strStartsWith (pyLowerStr value) "http://" ||
          strStartsWith (pyLowerStr value) "https://" then true
  else if strStartsWith (pyLowerStr value) "www." then true
  else if strContainsChar value '/' then true
  else false

/-- `_classify`: query type as a string tag, exactly as in the source. -/
def classify (query : String) : String :=
  let q := pyStrip query
  if digitsLen q 10 && validate_inn10 q then "inn_legal"
  else if digitsLen q 12 && validate_inn12 q then "inn_ip"
  else if digitsLen q 13 && validate_ogrn q then "ogrn"
  else if digitsLen q 15 && validate_ogrnip q then "ogrnip"
  else if is_url q then "url"
  else if q ≠ "" && q.data.all Char.isDigit then "invalid_numeric"
  else "name"

/-! ### Kernel-computable rational arithmetic

Floats of the source are modelled as `ℚ`. The Batteries field operations on
`Rat` are `@[irreducible]`, so the embedding uses the following wrappers,
provably equal to the ordinary operations, which the kernel can evaluate on
concrete inputs. -/

/-- Multiplication on `ℚ` through `Rat.normalize` (kernel-reducible). -/
def qMul (a b : ℚ) : ℚ :=
  Rat.normalize (a.num * b.num) (a.den * b.den) (Nat.mul_ne_zero a.den_nz b.den_nz)

/-- Inverse on `ℚ` through `Rat.divInt` (kernel-reducible). -/
def qInv (a : ℚ) : ℚ := Rat.divInt (a.den : Int) a.num

/-- Division on `ℚ` (kernel-reducible). -/
def qDiv (a b : ℚ) : ℚ := qMul a (qInv b)

/-! ### Dice bigram similarity (`_dice`) -/

/-- Bigram set of `_dice`: `{s[i:i+2] for i in range(len(s)-1)}` when
`len(s) > 1`, else the one-element set `{s}`. -/
def bigrams (s : List Char) : Finset (List Char) :=
  if 1 < s.length then
    (Finset.range (s.length - 1)).image (fun i => (s.drop i).take 2)
  else {s}

/-- `_dice`: Dice bigram similarity, floats modelled as `ℚ`. -/
def dice (a b : String) : ℚ :=
  if a = "" ∨ b = "" then 0
  else if a = b then 1
  else
    let ba := bigrams a.data
    let bb := bigrams b.data
    let overlap := (ba ∩ bb).card
    if ba.Nonempty ∧ bb.Nonempty then
      qDiv ((2 * overlap : ℕ) : ℚ) ((ba.card + bb.card : ℕ) : ℚ)
    else 0

/-! ### Name normalization (`_normalize_name`, `_apply_typo_map`) -/

/-- Characters kept by the class `[a-zа-я0-9 ]` of `_normalize_name`. -/
def allowedNormChar (c : Char) : Bool :=
  ('a' ≤ c && c ≤ 'z') || ('а' ≤ c && c ≤ 'я') || c.isDigit || c == ' '

/-- Models `re.sub(r"[^a-zа-я0-9 ]+", " ", s)`: each maximal run of disallowed
characters becomes a single space. The flag records whether the previous
character belonged to such a run. -/
def squashDisallowed : List Char → Bool → List Char
  | [], _ => []
  | c :: cs, prevBad =>
    if allowedNormChar c then c :: squashDisallowed cs false
    else if prevBad then squashDisallowed cs true
    else ' ' :: squashDisallowed cs true

/-- Literal patterns of the legal-form-stripping `re.sub` in `_normalize_name`.
The source writes the pattern as `"\\b(ооо|…)\\b"` inside a raw string, so the
regex matches a literal backslash-b around each word, not a word boundary; the
patterns below are those literal strings. -/
def legalFormPatterns : List String :=
  ["\\bооо\\b", "\\bоао\\b", "\\bзао\\b", "\\bпао\\b", "\\bао\\b",
   "\\bип\\b", "\\bнп\\b", "\\bфгуп\\b", "\\bмуп\\b"]

/-- Left-to-right removal of the literal legal-form patterns (fuel-indexed;
the fuel is the input length, which always suffices since every pattern is
nonempty). -/
def stripLegalFormsAux : Nat → List Char → List Char
  | 0, s => s
  | _ + 1, [] => []
  | fuel + 1, c :: cs =>
    match legalFormPatterns.find? (fun p => p.data.isPrefixOf (c :: cs)) with
    | some p => stripLegalFormsAux fuel ((c :: cs).drop p.data.length)
    | none => c :: stripLegalFormsAux fuel cs

/-- Models the legal-form-stripping `re.sub` of `_normalize_name`. -/
def stripLegalForms (s : List Char) : List Char := stripLegalFormsAux s.length s

/-- `_normalize_name`: lowercase, strip legal forms, replace disallowed runs
with spaces, collapse whitespace, strip. -/
def normalize_name (name : String) : String :=
  if name = "" then ""
  else
    let n1 := pyLowerStr name
    let n2 := String.mk (stripLegalForms n1.data)
    let n3 := String.mk (squashDisallowed n2.data false)
    pyWsNormalize n3

/-- `COMMON_TYPOS`. -/
def COMMON_TYPOS : List (String × String) :=
  [("яндкс", "яндекс"), ("сбрбанк", "сбербанк"), ("сбр", "сбер"),
   ("тинькоф", "тинькофф"), ("мгнит", "магнит")]

/-- `_apply_typo_map`: lowercase, strip, then dictionary lookup with the
query itself as the default. -/
def apply_typo_map (query : String) : String :=
  let q := pyStrip (pyLowerStr query)
  match COMMON_TYPOS.find? (fun kv => kv.1 = q) with
  | some kv => kv.2
  | none => q

/-! ### Data model: rows and candidates -/

/-- A normalized registry row (`RawRow`): the loosely-typed dict with the
optional fields the code reads. The extra `name` field models rows that carry
`"name"` instead of `"name_full"` (the code reads
`row.get("name_full") or row.get("name")`). -/
structure Row where
  ogrn : Option String := none
  inn : Option String := none
  name_full : Option String := none
  name : Option String := none
  name_short : Option String := none
  status : Option String := none
deriving DecidableEq, Repr

/-- `Candidate` dataclass; `confidence` is a float modelled as `ℚ`. -/
structure Candidate where
  ogrn : Option String
  inn : Option String
  name_full : Option String
  name_short : Option String
  status : Option String
  source : String
  confidence : ℚ
deriving DecidableEq, Repr

/-- `_build_candidate`: dice match against the normalized row name; the
confidence is `base_conf * name_match` when the match is nonzero (Python float
truthiness) and `base_conf` otherwise. -/
def build_candidate (row : Row) (source : String) (base_conf : ℚ)
    (query_norm : String) : Candidate :=
  let name_full := pyOr row.name_full row.name
  let name_short := row.name_short
  let name_match := dice query_norm (normalize_name (orEmpty (pyOr name_full name_short)))
  let conf := if name_match = 0 then base_conf else qMul base_conf name_match
  ⟨row.ogrn, row.inn, name_full, name_short, row.status, source, conf⟩

/-- Value stored under the resolve key: `candidate.inn or candidate.ogrn or ""`. -/
def innOrOgrn (c : Candidate) : String := orEmpty (pyOr c.inn c.ogrn)

/-- `_minimal_candidate_from_inn`: synthesized low-confidence candidate. -/
def minimal_candidate_from_inn (query inn_or_ogrn source : String) : Candidate :=
  { ogrn := if digitsLenBetween inn_or_ogrn 13 15 then some inn_or_ogrn else none
    inn := if digitsLenBetween inn_or_ogrn 10 12 then some inn_or_ogrn else none
    name_full := some query
    name_short := none
    status := none
    source := source
    confidence := mkRat 9 20 }

/-! ### Number extraction from snippets
(`_extract_numbers`, `_extract_number_counts`, `_pick_inn_from_snippets`) -/

/-- Models Python `\w` (word character) on the ranges the inputs use:
ASCII alphanumerics, underscore, and Cyrillic letters. -/
def isWordChar (c : Char) : Bool :=
  c.isAlphanum || c == '_' || ('а' ≤ c && c ≤ 'я') || ('А' ≤ c && c ≤ 'Я') ||
  c == 'ё' || c == 'Ё'

/-- Maximal runs of word characters in a character list (helper for the
`\b\d{n}\b` regex: a boundary-delimited digit group is a maximal word run
consisting only of digits). -/
def wordRunsAux : List Char → List Char → List (List Char)
  | [], acc => if acc = [] then [] else [acc.reverse]
  | c :: cs, acc =>
    if isWordChar c then wordRunsAux cs (c :: acc)
    else if acc = [] then wordRunsAux cs []
    else acc.reverse :: wordRunsAux cs []

/-- Maximal word-character runs of a string, in order. -/
def wordRuns (s : List Char) : List (List Char) := wordRunsAux s []

/-- `_extract_numbers`: all `\b\d{10}\b|\b\d{12}\b|\b\d{13}\b|\b\d{15}\b`
matches, in order: maximal word runs that are all digits with length 10, 12,
13 or 15. -/
def extract_numbers (text : String) : List String :=
  ((wordRuns text.data).filter (fun r =>
    r.all Char.isDigit &&
    (r.length == 10 || r.length == 12 || r.length == 13 || r.length == 15))).map
    String.mk

/-- Counting-dict update preserving first-insertion order (Python dict
semantics of `counts[num] = counts.get(num, 0) + 1`). -/
def bumpCount : List (String × Nat) → String → List (String × Nat)
  | [], k => [(k, 1)]
  | (k', n) :: rest, k =>
    if k' = k then (k', n + 1) :: rest else (k', n) :: bumpCount rest k

/-- `_extract_number_counts`: frequency of each extracted number across all
snippets, entries in first-seen order. -/
def extract_number_counts (snippets : List String) : List (String × Nat) :=
  snippets.foldl (fun counts s => (extract_numbers s).foldl bumpCount counts) []

/-- Stable descending insertion by count (equal counts keep their original
relative order), modelling `sorted(counts.items(), key=cnt, reverse=True)`. -/
def insertCountDesc (x : String × Nat) : List (String × Nat) → List (String × Nat)
  | [] => [x]
  | y :: ys => if x.2 < y.2 then y :: insertCountDesc x ys else x :: y :: ys

/-- Stable sort of count entries, descending by count. -/
def sortCountsDesc (l : List (String × Nat)) : List (String × Nat) :=
  l.foldr insertCountDesc []

/-- `_pick_inn_from_snippets`: first entry of the descending-sorted counts
with frequency at least 2 (no checksum filter here). -/
def pick_inn_from_snippets (snippets : List String) : Option String :=
  ((sortCountsDesc (extract_number_counts snippets)).find? (fun e => 2 ≤ e.2)).map
    (fun e => e.1)

/-! ### Snippet compaction (`_compact_snippets`) -/

/-- Models `re.sub(r"<[^>]+>", " ", s)` (fuel-indexed scanner; the fuel is the
input length, which always suffices). At `<`, a match needs at least one
non-`>` character before the closing `>`. -/
def stripTagsAux : Nat → List Char → List Char
  | 0, s => s
  | _ + 1, [] => []
  | fuel + 1, c :: cs =>
    if c = '<' then
      match cs.findIdx? (fun d => d = '>') with
      | some i =>
        if 1 ≤ i then ' ' :: stripTagsAux fuel (cs.drop (i + 1))
        else c :: stripTagsAux fuel cs
      | none => c :: stripTagsAux fuel cs
    else c :: stripTagsAux fuel cs

/-- Markup stripping of `_compact_snippets`. -/
def stripTags (s : List Char) : List Char := stripTagsAux s.length s

/-- Loop body of `_compact_snippets` (accumulator in reverse order; stops once
`max_items` snippets are collected). -/
def compactAux (max_items max_chars : Nat) : List String → List String → List String
  | [], acc => acc.reverse
  | raw :: rest, acc =>
    let text := pyWsNormalize (String.mk (stripTags raw.data))
    if text = "" then compactAux max_items max_chars rest acc
    else
      let acc' := strTake text max_chars :: acc
      if max_items ≤ acc'.length then acc'.reverse
      else compactAux max_items max_chars rest acc'

/-- `_compact_snippets`: strip markup, collapse whitespace, cap to
`max_items` snippets of `max_chars` characters. -/
def compact_snippets (snippets : List String) (max_items : Nat := 8)
    (max_chars : Nat := 320) : List String :=
  compactAux max_items max_chars snippets []

/-! ### URL domain extraction (`_extract_domain`) -/

/-- `_extract_domain`: prepend `https://` when no scheme is present, take the
network location (up to the first `/`, `?` or `#` after the scheme), lowercase,
drop a `www.` prefix, strip slashes. -/
def extract_domain (query : String) : String :=
  let value := pyStrip query
  if value = "" then ""
  else
    let hasScheme := strStartsWith (pyLowerStr value) "http://" ||
      strStartsWith (pyLowerStr value) "https://"
    let value2 := if hasScheme then value else "https://" ++ value
    let rest := if strStartsWith (pyLowerStr value2) "https://" then value2.data.drop 8
      else value2.data.drop 7
    let netloc := rest.takeWhile (fun c => c ≠ '/' && c ≠ '?' && c ≠ '#')
    let host := pyLowerStr (String.mk netloc)
    let host2 := if strStartsWith host "www." then String.mk (host.data.drop 4) else host
    String.mk (((host2.data.dropWhile (fun c => c = '/')).reverse.dropWhile
      (fun c => c = '/')).reverse)

/-! ### Authoritative adapter (`FnsClient`, `app/services/sources/fns.py`)

`FnsError` kinds raised by `_search_with_trace`, and the error-to-status
mapping of `search_with_status`. One invocation of the underlying
`_search_with_trace` HTTP conversation is abstracted as one entry of an
attempt oracle `Nat → Except ErrKind (List Row)` (attempt `i` is what the
`i`-th invocation would produce); `search_with_status` consumes attempt 0
only. The result carries the number of attempts performed. -/

inductive ErrKind
  | timeout
  | network
  | bad_response
  | http_error
  | blocked
deriving DecidableEq, Repr

/-- `FnsClient.search_with_status`: a single `_search_with_trace` invocation;
an `FnsError` becomes `([], some kind)`, success becomes `(rows, none)`.
The second component is the number of attempts performed (always 1: the
source has no retry loop). -/
def search_with_status (attempts : Nat → Except ErrKind (List Row)) :
    (List Row × Option ErrKind) × Nat :=
  match attempts 0 with
  | .ok rows => ((rows, none), 1)
  | .error e => (([], some e), 1)

/-- Retryable error kinds named by the spec's retry policy. -/
def specRetryable (e : ErrKind) : Bool :=
  match e with
  | .timeout => true
  | .network => true
  | .bad_response => true
  | .http_error => true
  | .blocked => false

/-- Modelled from the spec (for comparison with the code, not from the
source): "up to 3 attempts; retry only on {timeout, network, bad_response,
http_error}; backoff delay = 2^attempt seconds between attempts; blocked is
never retried and is surfaced immediately". Returns the result, the number of
attempts performed, and the list of backoff delays slept. `i` is the 0-based
index of the current attempt and `remaining` the number of attempts still
allowed including the current one. -/
def spec_retry_from (attempts : Nat → Except ErrKind (List Row)) :
    Nat → Nat → ((List Row × Option ErrKind) × Nat × List Nat)
  | i, 0 => (([], none), i, [])
  | i, remaining + 1 =>
    match attempts i with
    | .ok rows => ((rows, none), i + 1, [])
    | .error e =>
      if specRetryable e ∧ remaining ≠ 0 then
        let r := spec_retry_from attempts (i + 1) remaining
        (r.1, r.2.1, 2 ^ i :: r.2.2)
      else (([], some e), i + 1, [])

/-- Modelled from the spec: the retrying search entry point (3 attempts). -/
def spec_search_with_retry (attempts : Nat → Except ErrKind (List Row)) :
    (List Row × Option ErrKind) × Nat × List Nat :=
  spec_retry_from attempts 0 3

/-! ### Effect model for `lookup_company`

External calls are recorded in a trace; the cache is an association list from
(namespace, hashed value) keys to string values. The cache backend (redis) has
no error handling anywhere in `cache.py` / `lookup.py`, so a failing backend
is modelled by `Env.cacheFails`: when set, every cache read or write raises,
and the exception propagates (`Except.error`). Session-event logging
(`log_session_event`, `log_api_error`) carries no lookup-relevant state and is
not modelled. -/

/-- One external (network) call performed during a lookup. -/
inductive Call
  | fns (q : String)
  | kontur (q : String)
  | yandex (q : String)
  | dsWeb (q : String) (searchQ : String) (step : Nat)
  | dsResolve (q : String)
deriving DecidableEq, Repr

/-- Parsed reasoning-adapter response (`llm_resp` dict); `none` at the call
site models a falsy response (unreachable adapter or unparsable JSON). -/
structure LlmResp where
  action : Option String := none
  inn : Option String := none
  clarify : Option String := none
  search_query : Option String := none
deriving DecidableEq, Repr

/-- The external world: registry adapters, web search, reasoning adapter, and
cache backend health. -/
structure Env where
  cacheFails : Bool
  fns : String → List Row × Option ErrKind
  kontur : String → List Row
  yandex : String → List String
  dsConfigured : Bool
  dsWeb : String → String → List String → Nat → Nat → Option LlmResp
  dsResolve : String → List Candidate → Option LlmResp

/-- Mutable state threaded through a lookup: cache contents and the trace of
external calls. -/
structure St where
  cache : List ((String × String) × String)
  calls : List Call
deriving DecidableEq, Repr

/-- The only exception kind the embedded lookup can raise: a cache-backend
failure (the code has no try/except around `get_cached`/`set_cached`). -/
inductive CacheError
  | backend
deriving DecidableEq, Repr

/-- `_cache_key kind value`: SHA-256 hex digest modelled as the identity, so
the key is the (namespace, value) pair. -/
def cache_key (kind value : String) : String × String := (kind, value)

/-- Association-list lookup for the cache. -/
def lookupCache (c : List ((String × String) × String)) (k : String × String) :
    Option String :=
  (c.find? (fun e => e.1 = k)).map (fun e => e.2)

/-- Association-list overwrite-or-append for the cache. -/
def setCache (c : List ((String × String) × String)) (k : String × String)
    (v : String) : List ((String × String) × String) :=
  match c with
  | [] => [(k, v)]
  | e :: rest => if e.1 = k then (k, v) :: rest else e :: setCache rest k v

/-- `_cache_get` / `get_cached`: raises when the backend is down. -/
def cache_get (env : Env) (k : String × String) (st : St) :
    Except CacheError (Option String × St) :=
  if env.cacheFails then .error .backend else .ok (lookupCache st.cache k, st)

/-- `_cache_set` / `set_cached`: raises when the backend is down. The TTL is
kept in the signature for fidelity but not stored. -/
def cache_set (env : Env) (k : String × String) (v : String) (_ttl : Nat)
    (st : St) : Except CacheError St :=
  if env.cacheFails then .error .backend
  else .ok { st with cache := setCache st.cache k v }

/-- `_fns_search`: one authoritative-adapter search, recorded in the trace. -/
def callFns (env : Env) (q : String) (st : St) :
    (List Row × Option ErrKind) × St :=
  (env.fns q, { st with calls := st.calls ++ [Call.fns q] })

/-- `_kontur_search`: one secondary-adapter search, recorded in the trace. -/
def callKontur (env : Env) (q : String) (st : St) : List Row × St :=
  (env.kontur q, { st with calls := st.calls ++ [Call.kontur q] })

/-- `YandexSearchClient.search_web_with_meta`, recorded in the trace. -/
def callYandex (env : Env) (q : String) (st : St) : List String × St :=
  (env.yandex q, { st with calls := st.calls ++ [Call.yandex q] })

/-- `DeepSeekClient.think_web`, recorded in the trace. -/
def callDsWeb (env : Env) (query searchQ : String) (compact : List String)
    (step maxSteps : Nat) (st : St) : Option LlmResp × St :=
  (env.dsWeb query searchQ compact step maxSteps,
   { st with calls := st.calls ++ [Call.dsWeb query searchQ step] })

/-- `DeepSeekClient.resolve`, recorded in the trace. -/
def callDsResolve (env : Env) (query : String) (candidates : List Candidate)
    (st : St) : Option LlmResp × St :=
  (env.dsResolve query candidates,
   { st with calls := st.calls ++ [Call.dsResolve query] })

/-- `_resolve_inn_candidate`: re-resolve an identifier through the
authoritative adapter; `none` when it returns no rows. -/
def resolve_inn_candidate (env : Env) (v : String) (st : St) :
    Option Candidate × St :=
  let res := callFns env v st
  match res.1.1 with
  | [] => (none, res.2)
  | r :: _ =>
    (some (build_candidate r "fns" 1 (normalize_name (orEmpty r.name_full))), res.2)

/-! ### AgenticResolver (`_agentic_web_lookup`) -/

/-- Terminal action derived from the agentic loop: the fields of the returned
dict the caller reads (`action`, `inn`, `clarify`, `source`); the diagnostic
`meta` payload is not modelled. -/
structure AgentResult where
  action : String
  inn : Option String
  clarify : Option String
  source : String
deriving DecidableEq, Repr

/-- Decision taken from a reasoning-adapter response inside one loop step:
terminate with a result, continue with a new search phrase, or fall through to
the snippet heuristic. Mirrors the `select` / `clarify` / `search` handling of
`_agentic_web_lookup` (a falsy response, an invalid selected number, an empty
clarification, or a repeated/empty search phrase all fall through). -/
def ds_decision (resp : Option LlmResp) (current : String) :
    Option (Sum AgentResult String) :=
  match resp with
  | none => none
  | some r =>
    let action := pyLowerStr (pyStrip (orEmpty r.action))
    if action = "select" then
      let inn := pyStrip (orEmpty r.inn)
      if valid_company_number inn then
        some (.inl ⟨"select", some inn, none, "deepseek_web"⟩)
      else none
    else if action = "clarify" then
      let clarify := pyStrip (orEmpty r.clarify)
      if clarify ≠ "" then some (.inl ⟨"clarify", none, some clarify, "deepseek_web"⟩)
      else none
    else if action = "search" then
      let newQ := pyStrip (orEmpty r.search_query)
      if newQ ≠ "" && newQ ≠ current then some (.inr newQ) else none
    else none

/-- Loop of `_agentic_web_lookup` (`for step in range(1, max_steps + 1)`).
The fuel counts iterations still allowed; only the `search` action continues
to another iteration, every other path returns inside the first iteration
that reaches it. -/
def agentic_go (env : Env) (query : String) :
    String → Nat → Nat → St → Option AgentResult × St
  | _, _, 0, st => (none, st)
  | current, step, fuel + 1, st =>
    let ys := callYandex env current st
    let snippets := ys.1
    let st1 := ys.2
    if snippets = [] then (none, st1)
    else
      let compact := compact_snippets snippets 8 320
      let heuristic := fun (st' : St) =>
        match pick_inn_from_snippets snippets with
        | some inn =>
          if inn ≠ "" && valid_company_number inn then
            (some ⟨"select", some inn, none, "yandex_snippets"⟩, st')
          else (none, st')
        | none => (none, st')
      if env.dsConfigured then
        let ds := callDsWeb env query current compact step (step + fuel - 1) st1
        match ds_decision ds.1 current with
        | some (.inl r) => (some r, ds.2)
        | some (.inr newQ) => agentic_go env query newQ (step + 1) fuel ds.2
        | none => heuristic ds.2
      else heuristic st1

/-- `_agentic_web_lookup` with its `max_steps = 2` default. -/
def agentic_web_lookup (env : Env) (query search_query : String)
    (max_steps : Nat) (st : St) : Option AgentResult × St :=
  agentic_go env query search_query 1 max_steps st

/-! ### `lookup_company` -/

/-- `LookupOutcome`: the four terminal shapes of the dict returned by
`lookup_company` (`status` plus the payload the caller reads; the diagnostic
`sources_status` field is not modelled). -/
inductive Outcome
  | resolved (candidate : Candidate) (source : String)
  | clarify (msg : String)
  | notFound
  | disambiguate (candidates : List Candidate)
deriving DecidableEq, Repr

/-- Placeholder candidate for total list-head access on lists proved nonempty
at their use site. -/
def dummyCandidate : Candidate := ⟨none, none, none, none, none, "", 0⟩

/-- `_llm_cache_key`: query plus the tax IDs of the first three candidates. -/
def llm_cache_key (query : String) (candidates : List Candidate) :
    String × String :=
  cache_key "llm_resolve"
    (query ++ ";" ++ pyJoin ";" ((candidates.take 3).map (fun c => orEmpty c.inn)))

/-- Stable descending insertion by confidence, modelling
`candidates.sort(key=confidence, reverse=True)`. -/
def insertCandDesc (x : Candidate) : List Candidate → List Candidate
  | [] => [x]
  | y :: ys => if x.confidence < y.confidence then y :: insertCandDesc x ys
    else x :: y :: ys

/-- Stable sort of candidates, descending by confidence. -/
def sortCandidatesDesc (l : List Candidate) : List Candidate :=
  l.foldr insertCandDesc []

/-- Decision tail of the name flow of `lookup_company` (lines 689-804 of
`lookup.py`): ranking thresholds, the two reasoning-adapter escalation blocks
with their fall-through semantics, and the final disambiguate default.
`query_norm2` is the re-normalized query bound at line 689. -/
def name_flow_decide (env : Env) (query_norm2 : String)
    (resolve_key : String × String) (candidates : List Candidate) (st : St) :
    Except CacheError (Outcome × St) :=
  let top := candidates.headD dummyCandidate
  if mkRat 17 20 ≤ top.confidence ∧ candidates.length = 1 then
    match cache_set env resolve_key (innOrOgrn top) 86400 st with
    | .error e => .error e
    | .ok st' => .ok (.resolved top "fns", st')
  else
    -- block (lines 718-761): 2-3 ambiguous matches with mid confidence
    let block2 : Except CacheError (Option Outcome × St) :=
      if candidates.length ≤ 3 ∧ mkRat 3 5 ≤ top.confidence ∧ top.confidence < mkRat 17 20 then
        let llm_key := llm_cache_key query_norm2 candidates
        match cache_get env llm_key st with
        | .error e => .error e
        | .ok (llm_cached, st1) =>
          let afterCache : Option Outcome × St :=
            if truthy llm_cached then
              match resolve_inn_candidate env (orEmpty llm_cached) st1 with
              | (some cand, st2) => (some (.resolved cand "llm_cache"), st2)
              | (none, st2) => (none, st2)
            else (none, st1)
          match afterCache with
          | (some out, st2) => .ok (some out, st2)
          | (none, st2) =>
            let ds := callDsResolve env query_norm2 candidates st2
            match ds.1 with
            | some resp =>
              if resp.action = some "select" ∧ truthy resp.inn then
                match cache_set env resolve_key (orEmpty resp.inn) 86400 ds.2 with
                | .error e => .error e
                | .ok st3 =>
                  match cache_set env llm_key (orEmpty resp.inn) 86400 st3 with
                  | .error e => .error e
                  | .ok st4 =>
                    match resolve_inn_candidate env (orEmpty resp.inn) st4 with
                    | (some cand, st5) => .ok (some (.resolved cand "deepseek"), st5)
                    | (none, st5) =>
                      if resp.action = some "clarify" then
                        .ok (some (.clarify (orEmpty resp.clarify)), st5)
                      else .ok (none, st5)
              else if resp.action = some "clarify" then
                .ok (some (.clarify (orEmpty resp.clarify)), ds.2)
              else .ok (none, ds.2)
            | none => .ok (none, ds.2)
      else .ok (none, st)
    match block2 with
    | .error e => .error e
    | .ok (some out, st') => .ok (out, st')
    | .ok (none, st') =>
      -- block (lines 763-799): many matches or low confidence
      let block3 : Except CacheError (Option Outcome × St) :=
        if 3 < candidates.length ∨ top.confidence < mkRat 3 5 then
          let ds := callDsResolve env query_norm2 (candidates.take 3) st'
          match ds.1 with
          | some resp =>
            if resp.action = some "select" ∧ truthy resp.inn then
              match cache_set env resolve_key (orEmpty resp.inn) 86400 ds.2 with
              | .error e => .error e
              | .ok st3 =>
                match resolve_inn_candidate env (orEmpty resp.inn) st3 with
                | (some cand, st4) => .ok (some (.resolved cand "deepseek"), st4)
                | (none, st4) =>
                  if resp.action = some "clarify" then
                    .ok (some (.clarify (orEmpty resp.clarify)), st4)
                  else .ok (none, st4)
            else if resp.action = some "clarify" then
              .ok (some (.clarify (orEmpty resp.clarify)), ds.2)
            else .ok (none, ds.2)
          | none => .ok (none, ds.2)
        else .ok (none, st')
      match block3 with
      | .error e => .error e
      | .ok (some out, st'') => .ok (out, st'')
      | .ok (none, st'') => .ok (.disambiguate (candidates.take 5), st'')

/-- Select-action handling shared by the url and name flows (lines 598-617 and
640-659): re-resolve the selected number through the authoritative adapter,
fall back to a minimal synthesized candidate, write the resolve cache, and
return `resolved` with the agent's source tag. -/
def agent_select_finish (env : Env) (query : String)
    (resolve_key : String × String) (a : AgentResult) (st : St) :
    Except CacheError (Outcome × St) :=
  let inn := orEmpty a.inn
  match resolve_inn_candidate env inn st with
  | (cand?, st1) =>
    let cand := match cand? with
      | some c => c
      | none =>
        minimal_candidate_from_inn query inn
          (if a.source ≠ "" then a.source else "yandex_snippets")
    match cache_set env resolve_key (innOrOgrn cand) 86400 st1 with
    | .error e => .error e
    | .ok st2 => .ok (.resolved cand a.source, st2)

/-- Typo step of `lookup_company` (lines 485-509): consult the typo cache,
else apply the typo map and write back. -/
def typo_stage (env : Env) (query : String) (st : St) :
    Except CacheError (String × St) :=
  let typo_key := cache_key "typo" (pyStrip (pyLowerStr query))
  match cache_get env typo_key st with
  | .error e => .error e
  | .ok (typo_cached, st1) =>
    if truthy typo_cached then .ok (orEmpty typo_cached, st1)
    else
      let qn := apply_typo_map query
      match cache_set env typo_key qn 604800 st1 with
      | .error e => .error e
      | .ok st2 => .ok (qn, st2)

/-- Normalization step of `lookup_company` (lines 511-535): consult the
normalize cache, else normalize and write back. -/
def norm_stage (env : Env) (query_norm1 : String) (st : St) :
    Except CacheError (String × St) :=
  let norm_key := cache_key "normalize" query_norm1
  match cache_get env norm_key st with
  | .error e => .error e
  | .ok (norm_cached, stB) =>
    if truthy norm_cached then .ok (orEmpty norm_cached, stB)
    else
      let qn := normalize_name query_norm1
      match cache_set env norm_key qn 604800 stB with
      | .error e => .error e
      | .ok stC => .ok (qn, stC)

/-- `lookup_company`: the full resolution pipeline, from classification
through the typo / normalize / resolve caches to the direct, url and name
flows. Raises (`Except.error`) exactly where an unhandled cache-backend
exception would propagate in the source. -/
def lookup_company (env : Env) (query : String) (st0 : St) :
    Except CacheError (Outcome × St) :=
  let qtype := classify query
  if qtype = "invalid_numeric" then
    .ok (.clarify "Введите корректный ИНН/ОГРН или название.", st0)
  else
    match typo_stage env query st0 with
    | .error e => .error e
    | .ok (query_norm1, stA) =>
      match norm_stage env query_norm1 stA with
      | .error e => .error e
      | .ok (query_norm, stD) =>
            -- resolve cache (lines 537-551)
            let resolve_key := cache_key "resolve" query_norm
            match cache_get env resolve_key stD with
            | .error e => .error e
            | .ok (resolve_cached, stE) =>
              let hit : Option Candidate × St :=
                if truthy resolve_cached then
                  resolve_inn_candidate env (orEmpty resolve_cached) stE
                else (none, stE)
              match hit with
              | (some cand, stF) => .ok (.resolved cand "cache", stF)
              | (none, stF) =>
                if qtype = "inn_legal" ∨ qtype = "inn_ip" ∨
                   qtype = "ogrn" ∨ qtype = "ogrnip" then
                  -- direct flow (lines 554-585)
                  let fr := callFns env query stF
                  match fr.1.1 with
                  | r :: _ =>
                    let cand := build_candidate r "fns" 1
                      (normalize_name (orEmpty r.name_full))
                    match cache_set env resolve_key (innOrOgrn cand) 86400 fr.2 with
                    | .error e => .error e
                    | .ok stG => .ok (.resolved cand "fns", stG)
                  | [] =>
                    let kr := callKontur env query fr.2
                    match kr.1 with
                    | k :: _ =>
                      let cand := build_candidate k "kontur" 1
                        (normalize_name (orEmpty k.name_full))
                      match cache_set env resolve_key (innOrOgrn cand) 86400 kr.2 with
                      | .error e => .error e
                      | .ok stG => .ok (.resolved cand "kontur", stG)
                    | [] => .ok (.notFound, kr.2)
                else if qtype = "url" then
                  -- url flow (lines 588-629)
                  let domain := extract_domain query
                  let dq := if domain ≠ "" then domain else query_norm
                  let search_query := dq ++ " официальный сайт ИНН"
                  let ag := agentic_web_lookup env dq search_query 2 stF
                  match ag.1 with
                  | some a =>
                    if a.action = "select" then
                      agent_select_finish env query resolve_key a ag.2
                    else if a.action = "clarify" then
                      .ok (.clarify (orEmpty a.clarify), ag.2)
                    else
                      .ok (.clarify "Could not determine INN from the website. Please utochnite nazvanie or INN.", ag.2)
                  | none =>
                    .ok (.clarify "Could not determine INN from the website. Please utochnite nazvanie or INN.", ag.2)
                else
                  -- name flow (lines 631-804)
                  let search_query := query_norm ++ " официальный сайт ИНН"
                  let ag := agentic_web_lookup env query_norm search_query 2 stF
                  let agenticOut : Option (Except CacheError (Outcome × St)) :=
                    match ag.1 with
                    | some a =>
                      if a.action = "select" then
                        some (agent_select_finish env query resolve_key a ag.2)
                      else if a.action = "clarify" then
                        some (.ok (.clarify (orEmpty a.clarify), ag.2))
                      else none
                    | none => none
                  match agenticOut with
                  | some out => out
                  | none =>
                    -- FNS fallback (lines 672-804)
                    let fr := callFns env query_norm ag.2
                    match fr.1.1 with
                    | [] => .ok (.notFound, fr.2)
                    | _ :: _ =>
                      let query_norm2 := normalize_name query_norm
                      let candidates := sortCandidatesDesc
                        (((fr.1.1).take 10).map (fun r =>
                          build_candidate r "fns" (mkRat 7 10) query_norm2))
                      name_flow_decide env query_norm2 resolve_key candidates fr.2

/-! ### Spec-model definitions and concrete worlds used by the claims -/

/-- Modelled from the spec (comparison definition, not from the source):
`match_coefficient` = 1.0 if the candidate carries a registration number,
else 0.9 if it carries a tax ID, else max(0.5, dice similarity of the
normalized query and normalized short name). -/
def spec_match_coefficient (row : Row) (query_norm : String) : ℚ :=
  if truthy row.ogrn then 1
  else if truthy row.inn then mkRat 9 10
  else max (mkRat 1 2) (dice query_norm (normalize_name (orEmpty row.name_short)))

/-- Modelled from the spec: confidence = base weight × match coefficient. -/
def spec_confidence (row : Row) (base : ℚ) (query_norm : String) : ℚ :=
  qMul base (spec_match_coefficient row query_norm)

/-- Empty starting state. -/
def st_empty : St := ⟨[], []⟩

/-- Row used in the C1 counterexample oracle. -/
def c1row : Row := { inn := some "7707083893", name_full := some "Gazprom" }

/-- Attempt oracle where the first attempt times out and every further
attempt would succeed. -/
def c1attempts : Nat → Except ErrKind (List Row) :=
  fun n => if n = 0 then .error .timeout else .ok [c1row]

/-- Row used in the C3 counterexample: it carries a registration number, so
the spec formula gives coefficient 1.0, yet the code multiplies by the dice
similarity of the names. -/
def c3row : Row :=
  { ogrn := some "1027700132195", inn := some "7707083893",
    name_full := some "abd", name_short := some "abd" }

/-- Environment with a failing cache backend (for C4). -/
def env4 : Env :=
  { cacheFails := true
    fns := fun _ => ([], none)
    kontur := fun _ => []
    yandex := fun _ => []
    dsConfigured := false
    dsWeb := fun _ _ _ _ _ => none
    dsResolve := fun _ _ => none }

/-- Snippets for the C5 counterexample: the checksum-invalid "1234567890"
appears three times, the checksum-valid "7707083893" twice. -/
def snip5 : List String :=
  ["1234567890 7707083893", "1234567890 7707083893", "1234567890"]

/-- Environment for C5: no reasoning adapter, web search returns `snip5`. -/
def env5 : Env :=
  { cacheFails := false
    fns := fun _ => ([], none)
    kontur := fun _ => []
    yandex := fun _ => snip5
    dsConfigured := false
    dsWeb := fun _ _ _ _ _ => none
    dsResolve := fun _ _ => none }

/-- Registry row for the C7 witness and the C2 world. -/
def row7 : Row := { inn := some "7707083893", name_full := some "gazprom" }

/-- Environment for the C7 witness: the authoritative adapter answers with
one row for every query. -/
def env7 : Env :=
  { cacheFails := false
    fns := fun _ => ([row7], none)
    kontur := fun _ => []
    yandex := fun _ => []
    dsConfigured := false
    dsWeb := fun _ _ _ _ _ => none
    dsResolve := fun _ _ => none }

/-- Environment for C2: the authoritative adapter answers with `row7` for
every query (in particular for the cached identifier). -/
def env2 : Env :=
  { cacheFails := false
    fns := fun _ => ([row7], none)
    kontur := fun _ => []
    yandex := fun _ => []
    dsConfigured := false
    dsWeb := fun _ _ _ _ _ => none
    dsResolve := fun _ _ => none }

/-- Starting state for C2: the resolve cache already holds the identifier
"7707083893" under the normalized query "acme" (as a previous lookup would
have written it). -/
def st2init : St := ⟨[(("resolve", "acme"), "7707083893")], []⟩

/-- First registry row for the C10 scenario. -/
def rowX : Row := { inn := some "5555555555", name_full := some "uvw" }

/-- Second registry row for the C10 scenario. -/
def rowY : Row := { inn := some "6666666666", name_full := some "xyz" }

/-- Environment for C10: web search returns nothing (so the agentic loop
yields no action), the registry returns two mid-confidence rows for the name
query, the reasoning adapter selects the identifier "1234567890", and the
registry has no rows for that identifier (verification fails). -/
def env10 : Env :=
  { cacheFails := false
    fns := fun q => if q = "roga" then ([rowX, rowY], none) else ([], none)
    kontur := fun _ => []
    yandex := fun _ => []
    dsConfigured := true
    dsWeb := fun _ _ _ _ _ => none
    dsResolve := fun _ _ =>
      some { action := some "select", inn := some "1234567890" } }

/-! ### Shared helper lemmas -/

/-- The multiplication wrapper agrees with multiplication. -/
lemma qMul_eq (a b : ℚ) : qMul a b = a * b := (Rat.mul_def a b).symm

/-- The inversion wrapper agrees with inversion. -/
lemma qInv_eq (a : ℚ) : qInv a = a⁻¹ := (Rat.inv_def a).symm

/-- The division wrapper agrees with division. -/
lemma qDiv_eq (a b : ℚ) : qDiv a b = a / b := by
  rw [qDiv, qMul_eq, qInv_eq, div_eq_mul_inv]

/-- An ASCII digit character is not whitespace. -/
lemma isDigit_not_ws {c : Char} (h : c.isDigit = true) : c.isWhitespace = false := by
  have h' : c.isDigit = true := h
  simp [Char.isDigit, Char.isWhitespace] at *
  refine ⟨⟨⟨?_, ?_⟩, ?_⟩, ?_⟩ <;> rintro rfl <;> exact absurd h' (by decide)

/-- A digit character differs from any concretely non-digit character. -/
lemma isDigit_ne {c d : Char} (h : c.isDigit = true) (hd : d.isDigit = false) :
    c ≠ d := by
  intro he
  subst he
  rw [h] at hd
  exact Bool.noConfusion hd

/-- Lowercasing fixes digit characters. -/
lemma lowerChar_digit {c : Char} (h : c.isDigit = true) : lowerChar c = c := by
  simp only [Char.isDigit, decide_eq_true_eq, Bool.and_eq_true] at h
  have hhi : c.val.toNat ≤ 57 := h.2
  unfold lowerChar
  have h1 : ¬ ('A' ≤ c) := by
    intro hle
    rw [Char.le_def] at hle
    have : 65 ≤ c.val.toNat := hle
    omega
  have h2 : ¬ ('А' ≤ c) := by
    intro hle
    rw [Char.le_def] at hle
    have : 1040 ≤ c.val.toNat := hle
    omega
  have h3 : c ≠ 'Ё' := by
    intro he
    subst he
    revert hhi
    decide
  simp [h1, h2, h3]

/-- Dropping whitespace from the front of an all-digit list is the identity. -/
lemma dropWhile_ws_of_digits {l : List Char} (h : l.all Char.isDigit = true) :
    l.dropWhile Char.isWhitespace = l := by
  cases l with
  | nil => rfl
  | cons c cs =>
    rw [List.dropWhile_cons]
    have hc : c.isDigit = true := by
      simp only [List.all_cons, Bool.and_eq_true] at h
      exact h.1
    rw [isDigit_not_ws hc]
    simp

/-- Stripping an all-digit list is the identity. -/
lemma stripChars_of_digits {l : List Char} (h : l.all Char.isDigit = true) :
    stripChars l = l := by
  unfold stripChars
  rw [dropWhile_ws_of_digits h]
  rw [dropWhile_ws_of_digits (show l.reverse.all Char.isDigit = true by simpa using h)]
  exact List.reverse_reverse l

/-- Python `strip` fixes all-digit strings. -/
lemma pyStrip_of_digits {q : String} (h : q.data.all Char.isDigit = true) :
    pyStrip q = q := by
  unfold pyStrip
  rw [stripChars_of_digits h]

/-- Mapping a function that fixes every element is the identity. -/
lemma map_fix_of_all {l : List Char} {f : Char → Char}
    (h : ∀ c ∈ l, f c = c) : l.map f = l := by
  induction l with
  | nil => rfl
  | cons c cs ih =>
    simp only [List.map_cons]
    rw [h c (by simp), ih (fun d hd => h d (by simp [hd]))]

/-- Python `lower` fixes all-digit strings. -/
lemma pyLowerStr_of_digits {q : String} (h : q.data.all Char.isDigit = true) :
    pyLowerStr q = q := by
  unfold pyLowerStr
  rw [map_fix_of_all (fun c hc => lowerChar_digit (by
    have := List.all_eq_true.1 h _ hc
    simpa using this))]

/-- A string is empty iff its character list is empty. -/
lemma string_eq_empty_iff {q : String} : q = "" ↔ q.data = [] := by
  cases q with
  | mk l =>
    show String.mk l = String.mk [] ↔ l = []
    constructor
    · intro h
      injection h
    · intro h
      rw [h]

/-- An all-digit nonempty string is not classified as a URL. -/
lemma is_url_of_digits {q : String} (hd : q.data.all Char.isDigit = true) :
    is_url q = false := by
  unfold is_url
  rw [pyStrip_of_digits hd]
  by_cases hne : q = ""
  · simp [hne]
  · rw [if_neg hne]
    obtain ⟨c, cs, hq⟩ : ∃ c cs, q.data = c :: cs := by
      rcases hl : q.data with _ | ⟨c, cs⟩
      · exact absurd (string_eq_empty_iff.2 hl) hne
      · exact ⟨c, cs, rfl⟩
    have hc : c.isDigit = true := by
      rw [hq] at hd
      simp only [List.all_cons, Bool.and_eq_true] at hd
      exact hd.1
    have hlow : (pyLowerStr q).data = c :: cs := by
      rw [pyLowerStr_of_digits hd, hq]
    have h1 : strStartsWith (pyLowerStr q) "http://" = false := by
      unfold strStartsWith
      rw [hlow]
      show (('h' == c) && _) = false
      rw [beq_eq_false_iff_ne.2 (Ne.symm (isDigit_ne hc (by decide)))]
      rfl
    have h2 : strStartsWith (pyLowerStr q) "https://" = false := by
      unfold strStartsWith
      rw [hlow]
      show (('h' == c) && _) = false
      rw [beq_eq_false_iff_ne.2 (Ne.symm (isDigit_ne hc (by decide)))]
      rfl
    have h3 : strStartsWith (pyLowerStr q) "www." = false := by
      unfold strStartsWith
      rw [hlow]
      show (('w' == c) && _) = false
      rw [beq_eq_false_iff_ne.2 (Ne.symm (isDigit_ne hc (by decide)))]
      rfl
    have h4 : strContainsChar q '/' = false := by
      unfold strContainsChar
      rcases hcon : q.data.contains '/' with _ | _
      · rfl
      · exfalso
        have hmem : '/' ∈ q.data := by
          simpa using hcon
        have : ('/' : Char).isDigit = true := List.all_eq_true.1 hd _ hmem
        exact absurd this (by decide)
    rw [h1, h2, h3, h4]
    simp

/-! ### Claim C8: checksum validators -/

/-- C8: the checksum validators implement the fixed modular formulas: a
10-digit INN is valid iff its weighted digit sum with coefficients
(2,4,10,3,5,9,4,6,8) mod 11 mod 10 equals the last digit; a 12-digit INN
requires the two weighted checks over its first 10 and first 11 digits; a
13-digit OGRN is valid iff its first 12 digits as a number mod 11 mod 10 equal
the last digit; a 15-digit OGRNIP iff its first 14 digits mod 13 mod 10 equal
the last digit; and "7707083893" validates as a correct INN10. -/
theorem C8_checksum_validators :
    (∀ s : String, validate_inn10 s = true ↔
      (s.length = 10 ∧ s.data.all Char.isDigit = true ∧
        (2 * (s.data.map digitVal).getD 0 0 + 4 * (s.data.map digitVal).getD 1 0 +
         10 * (s.data.map digitVal).getD 2 0 + 3 * (s.data.map digitVal).getD 3 0 +
         5 * (s.data.map digitVal).getD 4 0 + 9 * (s.data.map digitVal).getD 5 0 +
         4 * (s.data.map digitVal).getD 6 0 + 6 * (s.data.map digitVal).getD 7 0 +
         8 * (s.data.map digitVal).getD 8 0) % 11 % 10 = (s.data.map digitVal).getD 9 0))
  ∧ (∀ s : String, validate_inn12 s = true ↔
      (s.length = 12 ∧ s.data.all Char.isDigit = true ∧
        (7 * (s.data.map digitVal).getD 0 0 + 2 * (s.data.map digitVal).getD 1 0 +
         4 * (s.data.map digitVal).getD 2 0 + 10 * (s.data.map digitVal).getD 3 0 +
         3 * (s.data.map digitVal).getD 4 0 + 5 * (s.data.map digitVal).getD 5 0 +
         9 * (s.data.map digitVal).getD 6 0 + 4 * (s.data.map digitVal).getD 7 0 +
         6 * (s.data.map digitVal).getD 8 0 + 8 * (s.data.map digitVal).getD 9 0) % 11 % 10
          = (s.data.map digitVal).getD 10 0 ∧
        (3 * (s.data.map digitVal).getD 0 0 + 7 * (s.data.map digitVal).getD 1 0 +
         2 * (s.data.map digitVal).getD 2 0 + 4 * (s.data.map digitVal).getD 3 0 +
         10 * (s.data.map digitVal).getD 4 0 + 3 * (s.data.map digitVal).getD 5 0 +
         5 * (s.data.map digitVal).getD 6 0 + 9 * (s.data.map digitVal).getD 7 0 +
         4 * (s.data.map digitVal).getD 8 0 + 6 * (s.data.map digitVal).getD 9 0 +
         8 * (s.data.map digitVal).getD 10 0) % 11 % 10 = (s.data.map digitVal).getD 11 0))
  ∧ (∀ s : String, validate_ogrn s = true ↔
      (s.length = 13 ∧ s.data.all Char.isDigit = true ∧
        natOfDigits (s.data.take 12) % 11 % 10 = digitVal (s.data.getD 12 '0')))
  ∧ (∀ s : String, validate_ogrnip s = true ↔
      (s.length = 15 ∧ s.data.all Char.isDigit = true ∧
        natOfDigits (s.data.take 14) % 13 % 10 = digitVal (s.data.getD 14 '0')))
  ∧ valid_company_number "7707083893" = true := by
  refine ⟨fun s => ?_, fun s => ?_, fun s => ?_, fun s => ?_, by decide⟩ <;>
  · simp only [validate_inn10, validate_inn12, validate_ogrn, validate_ogrnip, digitsLen]
    by_cases h1 : s.length = 10 <;> by_cases h2 : s.data.all Char.isDigit = true <;>
      by_cases h3 : s.length = 12 <;> by_cases h4 : s.length = 13 <;>
      by_cases h5 : s.length = 15 <;>
      simp_all

/-! ### Claim C9: dice similarity properties -/

/-- Bigram sets are always nonempty. -/
lemma bigrams_nonempty (s : List Char) : (bigrams s).Nonempty := by
  unfold bigrams
  split
  · apply Finset.Nonempty.image
    rw [Finset.nonempty_range_iff]
    omega
  · exact Finset.singleton_nonempty _

/-- C9: dice similarity properties: reflexivity on nonempty strings,
symmetry, zero on an empty argument, the shared-bigram formula for distinct
nonempty strings, and the one-element bigram set of single characters. -/
theorem C9_dice_properties :
    (∀ a : String, a ≠ "" → dice a a = 1)
  ∧ (∀ a b : String, dice a b = dice b a)
  ∧ dice "" "x" = 0
  ∧ (∀ a b : String, a ≠ "" → b ≠ "" → a ≠ b →
      dice a b = (2 * ((bigrams a.data ∩ bigrams b.data).card : ℚ)) /
        (((bigrams a.data).card : ℚ) + ((bigrams b.data).card : ℚ)))
  ∧ (∀ c : Char, bigrams [c] = {[c]}) := by
  refine ⟨?_, ?_, by decide, ?_, fun c => rfl⟩
  · intro a ha
    simp [dice, ha]
  · intro a b
    simp only [dice]
    by_cases ha : a = ""
    · by_cases hb : b = "" <;> simp [ha, hb]
    · by_cases hb : b = ""
      · simp [ha, hb]
      · rw [if_neg (show ¬(a = "" ∨ b = "") by simp [ha, hb]),
          if_neg (show ¬(b = "" ∨ a = "") by simp [ha, hb])]
        by_cases hab : a = b
        · rw [if_pos hab, if_pos hab.symm]
        · rw [if_neg hab, if_neg (Ne.symm hab)]
          rw [Finset.inter_comm]
          rw [Nat.add_comm (bigrams a.data).card (bigrams b.data).card]
          rw [if_pos ⟨bigrams_nonempty a.data, bigrams_nonempty b.data⟩,
            if_pos ⟨bigrams_nonempty b.data, bigrams_nonempty a.data⟩]
  · intro a b ha hb hab
    simp only [dice]
    rw [if_neg (show ¬(a = "" ∨ b = "") by simp [ha, hb]), if_neg hab,
      if_pos ⟨bigrams_nonempty a.data, bigrams_nonempty b.data⟩, qDiv_eq]
    push_cast
    ring

/-- Witness for C8: the validator accepts the concrete INN10 via the
arithmetic formula. -/
theorem C8_checksum_validators_witness : validate_inn10 "7707083893" = true :=
  (C8_checksum_validators.1 "7707083893").2 (by decide)

/-- Witness for C9 at concrete strings. -/
theorem C9_dice_properties_witness :
    dice "ab" "ab" = 1 ∧
    dice "ab" "cd" = (2 * ((bigrams "ab".data ∩ bigrams "cd".data).card : ℚ)) /
      (((bigrams "ab".data).card : ℚ) + ((bigrams "cd".data).card : ℚ)) :=
  ⟨C9_dice_properties.1 "ab" (by decide),
   C9_dice_properties.2.2.2.1 "ab" "cd" (by decide) (by decide) (by decide)⟩

/-! ### Claim C1: retry policy of the authoritative adapter -/

/-- C1 counterexample: on an oracle whose first attempt fails with `timeout`
(a retryable kind) and whose second attempt would succeed,
`FnsClient.search_with_status` performs exactly one attempt and surfaces the
timeout, whereas the spec's retry policy would perform a second attempt after
a backoff delay and return the rows. So the code has no retry-with-backoff. -/
theorem C1_counterexample :
    search_with_status c1attempts = (([], some .timeout), 1) ∧
    spec_search_with_retry c1attempts = (([c1row], none), 2, [1]) ∧
    (search_with_status c1attempts).1 ≠ (spec_search_with_retry c1attempts).1 := by
  refine ⟨rfl, rfl, ?_⟩
  intro h
  simp [search_with_status, spec_search_with_retry, spec_retry_from, c1attempts,
    specRetryable] at h

/-- C1 amended: `FnsClient.search_with_status` makes exactly one attempt per
search; its result depends only on attempt 0; every error kind — retryable
kinds and `blocked` alike — is surfaced immediately with no retry and no
backoff, and success returns the rows of the single attempt. -/
theorem C1_single_attempt (attempts attempts' : Nat → Except ErrKind (List Row)) :
    (search_with_status attempts).2 = 1
  ∧ (attempts 0 = attempts' 0 → search_with_status attempts = search_with_status attempts')
  ∧ (∀ e, attempts 0 = .error e → search_with_status attempts = (([], some e), 1))
  ∧ (∀ rows, attempts 0 = .ok rows → search_with_status attempts = ((rows, none), 1)) := by
  refine ⟨?_, ?_, ?_, ?_⟩
  · unfold search_with_status
    rcases attempts 0 with e | rows <;> rfl
  · intro h
    unfold search_with_status
    rw [h]
  · intro e h
    unfold search_with_status
    rw [h]
  · intro rows h
    unfold search_with_status
    rw [h]

/-- Witness for C1 amended, applied at the counterexample oracle. -/
theorem C1_single_attempt_witness :
    search_with_status c1attempts = (([], some .timeout), 1) :=
  (C1_single_attempt c1attempts c1attempts).2.2.1 .timeout rfl

/-! ### Claim C3: candidate confidence formula -/

/-- C3 counterexample: for a row carrying an ogrn with base weight 1 and
normalized query "abc", the code's `_build_candidate` yields confidence
1 × dice("abc","abd") = 1/2, while the spec formula yields 1 × 1.0 = 1.
The presence of an identifier plays no role in the code. -/
theorem C3_counterexample :
    (build_candidate c3row "fns" 1 "abc").confidence = mkRat 1 2 ∧
    spec_confidence c3row 1 "abc" = 1 ∧
    (mkRat 1 2 : ℚ) ≠ 1 := by
  refine ⟨by decide, by decide, by decide⟩

/-- C3 amended: for every registry row, the candidate's confidence equals
`base_conf × dice(query_norm, normalize(name_full or name or name_short or ""))`
when that dice similarity is nonzero, and `base_conf` otherwise; the presence
of a registration number or tax ID does not enter the formula, and there is
no 0.5 floor. The identifier, name and status fields are copied through. -/
theorem C3_build_candidate_formula (row : Row) (source : String) (base_conf : ℚ)
    (query_norm : String) :
    (build_candidate row source base_conf query_norm).confidence =
      (if dice query_norm
          (normalize_name (orEmpty (pyOr (pyOr row.name_full row.name) row.name_short))) = 0
       then base_conf
       else base_conf *
         dice query_norm
           (normalize_name (orEmpty (pyOr (pyOr row.name_full row.name) row.name_short))))
  ∧ (build_candidate row source base_conf query_norm).name_short = row.name_short
  ∧ (build_candidate row source base_conf query_norm).ogrn = row.ogrn
  ∧ (build_candidate row source base_conf query_norm).inn = row.inn
  ∧ (build_candidate row source base_conf query_norm).source = source := by
  refine ⟨?_, rfl, rfl, rfl, rfl⟩
  simp only [build_candidate, qMul_eq]

/-! ### Claim C5: snippet-frequency heuristic of the agentic loop -/

/-- C5 counterexample: the number "7707083893" is extracted with frequency
2 ≥ 2 and passes its checksum, yet the heuristic produces no select action,
because it only checksums the single most frequent number ("1234567890",
frequency 3, checksum-invalid) and then gives up. -/
theorem C5_counterexample :
    extract_number_counts snip5 = [("1234567890", 3), ("7707083893", 2)] ∧
    valid_company_number "7707083893" = true ∧
    (extract_number_counts snip5).any
      (fun e => decide (2 ≤ e.2) && valid_company_number e.1) = true ∧
    (agentic_web_lookup env5 "q" "sq" 2 st_empty).1 = none := by
  refine ⟨by decide, by decide, by decide, by decide⟩

/-- C5 amended: with no reasoning adapter configured, one agentic step runs
the web search once and then the heuristic considers only the top entry of
the frequency-sorted extracted numbers: a select action is produced exactly
when that top number has frequency ≥ 2 and itself passes its checksum; other
extracted numbers are never checksum-tested. -/
theorem C5_heuristic_top_frequency (env : Env) (query sq : String) (st : St)
    (hds : env.dsConfigured = false) :
    agentic_web_lookup env query sq 2 st =
      ((if env.yandex sq = [] then none
        else match pick_inn_from_snippets (env.yandex sq) with
          | some inn =>
            if inn ≠ "" && valid_company_number inn then
              some ⟨"select", some inn, none, "yandex_snippets"⟩
            else none
          | none => none),
       { st with calls := st.calls ++ [Call.yandex sq] }) := by
  by_cases hy : env.yandex sq = []
  · simp [agentic_web_lookup, agentic_go, callYandex, hy, hds]
  · simp only [agentic_web_lookup, agentic_go, callYandex, hds, Bool.false_eq_true,
      if_false, if_neg hy]
    cases hp : pick_inn_from_snippets (env.yandex sq) with
    | none => simp [hp]
    | some inn =>
      simp only [hp]
      by_cases hvb : (decide (inn ≠ "") && valid_company_number inn) = true
      · rw [if_pos hvb, if_pos hvb]
      · rw [if_neg hvb, if_neg hvb]

/-- Witness for C5 amended, applied at the counterexample environment. -/
theorem C5_heuristic_top_frequency_witness :
    agentic_web_lookup env5 "q" "sq" 2 st_empty =
      (none, { st_empty with calls := st_empty.calls ++ [Call.yandex "sq"] }) := by
  rw [C5_heuristic_top_frequency env5 "q" "sq" st_empty rfl]
  decide

/-! ### Claim C6: invalid numeric queries short-circuit -/

/-- C6: every all-digit query that fails every checksum is classified
`invalid_numeric`, and `lookup_company` returns the clarify outcome with the
state unchanged — no cache access and no network call of any kind. The
concrete scenario "1234567890" is the witness. -/
theorem C6_invalid_numeric_short_circuit (env : Env) (st : St) (query : String)
    (hne : pyStrip query ≠ "")
    (hdig : (pyStrip query).data.all Char.isDigit = true)
    (hval : valid_company_number (pyStrip query) = false) :
    classify query = "invalid_numeric" ∧
    lookup_company env query st =
      .ok (.clarify "Введите корректный ИНН/ОГРН или название.", st) := by
  have h10 : (digitsLen (pyStrip query) 10 && validate_inn10 (pyStrip query)) = false := by
    by_cases h : digitsLen (pyStrip query) 10 = true
    · unfold valid_company_number at hval
      rw [if_neg hne, if_pos h] at hval
      simp [hval]
    · simp only [Bool.not_eq_true] at h
      simp [h]
  have h12 : (digitsLen (pyStrip query) 12 && validate_inn12 (pyStrip query)) = false := by
    by_cases h : digitsLen (pyStrip query) 12 = true
    · have hlen : (pyStrip query).length = 12 := by
        simp only [digitsLen, Bool.and_eq_true, beq_iff_eq] at h
        exact h.1
      have h10' : digitsLen (pyStrip query) 10 = false := by
        simp [digitsLen, hlen]
      unfold valid_company_number at hval
      rw [if_neg hne, if_neg (by rw [h10']; exact Bool.false_ne_true),
        if_pos h] at hval
      simp [hval]
    · simp only [Bool.not_eq_true] at h
      simp [h]
  have h13 : (digitsLen (pyStrip query) 13 && validate_ogrn (pyStrip query)) = false := by
    by_cases h : digitsLen (pyStrip query) 13 = true
    · have hlen : (pyStrip query).length = 13 := by
        simp only [digitsLen, Bool.and_eq_true, beq_iff_eq] at h
        exact h.1
      have h10' : digitsLen (pyStrip query) 10 = false := by
        simp [digitsLen, hlen]
      have h12' : digitsLen (pyStrip query) 12 = false := by
        simp [digitsLen, hlen]
      unfold valid_company_number at hval
      rw [if_neg hne, if_neg (by rw [h10']; exact Bool.false_ne_true),
        if_neg (by rw [h12']; exact Bool.false_ne_true), if_pos h] at hval
      simp [hval]
    · simp only [Bool.not_eq_true] at h
      simp [h]
  have h15 : (digitsLen (pyStrip query) 15 && validate_ogrnip (pyStrip query)) = false := by
    by_cases h : digitsLen (pyStrip query) 15 = true
    · have hlen : (pyStrip query).length = 15 := by
        simp only [digitsLen, Bool.and_eq_true, beq_iff_eq] at h
        exact h.1
      have h10' : digitsLen (pyStrip query) 10 = false := by
        simp [digitsLen, hlen]
      have h12' : digitsLen (pyStrip query) 12 = false := by
        simp [digitsLen, hlen]
      have h13' : digitsLen (pyStrip query) 13 = false := by
        simp [digitsLen, hlen]
      unfold valid_company_number at hval
      rw [if_neg hne, if_neg (by rw [h10']; exact Bool.false_ne_true),
        if_neg (by rw [h12']; exact Bool.false_ne_true),
        if_neg (by rw [h13']; exact Bool.false_ne_true), if_pos h] at hval
      simp [hval]
    · simp only [Bool.not_eq_true] at h
      simp [h]
  have hurl : is_url (pyStrip query) = false := is_url_of_digits hdig
  have hcl : classify query = "invalid_numeric" := by
    simp only [classify]
    rw [h10, h12, h13, h15, hurl]
    simp [hne, hdig]
  refine ⟨hcl, ?_⟩
  simp only [lookup_company]
  rw [hcl]
  simp

/-- Witness for C6: the concrete scenario query "1234567890" (fails the INN10
checksum) yields the clarify outcome with zero network calls. -/
theorem C6_invalid_numeric_witness :
    lookup_company env5 "1234567890" st_empty =
      .ok (.clarify "Введите корректный ИНН/ОГРН или название.", st_empty) :=
  (C6_invalid_numeric_short_circuit env5 st_empty "1234567890"
    (by decide) (by decide) (by decide)).2

/-! ### Cache and stage evaluation lemmas -/

/-- Pairs with different first components differ. -/
lemma ne_of_fst_ne {a c b d : String} (h : a ≠ c) : (a, b) ≠ (c, d) :=
  fun he => h (congrArg Prod.fst he)

/-- Writing one key does not change lookups of a different key. -/
lemma lookupCache_set_ne (c : List ((String × String) × String))
    (k k' : String × String) (v : String) (h : k' ≠ k) :
    lookupCache (setCache c k v) k' = lookupCache c k' := by
  induction c with
  | nil => simp [setCache, lookupCache, Ne.symm h]
  | cons e rest ih =>
    simp only [setCache]
    by_cases he : e.1 = k
    · rw [if_pos he]
      simp [lookupCache, List.find?_cons, Ne.symm h, he]
    · rw [if_neg he]
      by_cases he' : e.1 = k'
      · simp [lookupCache, List.find?_cons, he']
      · simp only [lookupCache, List.find?_cons] at ih ⊢
        rw [show (decide (e.1 = k')) = false by simp [he']]
        exact ih

/-- Reading a freshly written key returns the written value. -/
lemma lookupCache_set_self (c : List ((String × String) × String))
    (k : String × String) (v : String) :
    lookupCache (setCache c k v) k = some v := by
  induction c with
  | nil => simp [setCache, lookupCache]
  | cons e rest ih =>
    simp only [setCache]
    by_cases he : e.1 = k
    · rw [if_pos he]
      simp [lookupCache, List.find?_cons]
    · rw [if_neg he]
      simp only [lookupCache, List.find?_cons] at ih ⊢
      rw [show (decide (e.1 = k)) = false by simp [he]]
      exact ih

/-- Cache reads succeed when the backend is up. -/
lemma cache_get_ok (env : Env) (k : String × String) (st : St)
    (hcf : env.cacheFails = false) :
    cache_get env k st = .ok (lookupCache st.cache k, st) := by
  simp [cache_get, hcf]

/-- Cache writes succeed when the backend is up. -/
lemma cache_set_ok (env : Env) (k : String × String) (v : String) (ttl : Nat)
    (st : St) (hcf : env.cacheFails = false) :
    cache_set env k v ttl st = .ok { st with cache := setCache st.cache k v } := by
  simp [cache_set, hcf]

/-- Typo stage on a miss: applies the typo map and writes the typo key. -/
lemma typo_stage_miss (env : Env) (query : String) (st : St)
    (hcf : env.cacheFails = false)
    (hm : lookupCache st.cache (cache_key "typo" (pyStrip (pyLowerStr query))) = none) :
    typo_stage env query st = .ok (apply_typo_map query,
      { st with cache := setCache st.cache (cache_key "typo" (pyStrip (pyLowerStr query))) (apply_typo_map query) }) := by
  simp [typo_stage, cache_get_ok env _ _ hcf, cache_set_ok env _ _ _ _ hcf, hm, truthy]

/-- Normalization stage on a miss: normalizes and writes the normalize key. -/
lemma norm_stage_miss (env : Env) (q1 : String) (st : St)
    (hcf : env.cacheFails = false)
    (hm : lookupCache st.cache (cache_key "normalize" q1) = none) :
    norm_stage env q1 st = .ok (normalize_name q1,
      { st with cache := setCache st.cache (cache_key "normalize" q1) (normalize_name q1) }) := by
  simp [norm_stage, cache_get_ok env _ _ hcf, cache_set_ok env _ _ _ _ hcf, hm, truthy]

/-! ### Claim C4: cache-backend failures abort lookups -/

/-- C4 counterexample: with a failing cache backend, the lookup for the name
query "acme" raises (`Except.error`) instead of logging and continuing — the
code has no try/except around `get_cached`/`set_cached`, so a cache failure
aborts the lookup and no normal outcome is produced. -/
theorem C4_counterexample :
    lookup_company env4 "acme" st_empty = .error .backend := rfl

/-- C4 amended: a cache-backend failure aborts every lookup except the
`invalid_numeric` short-circuit (which touches no cache): the first cache
read raises and the exception propagates out of `lookup_company`. -/
theorem C4_cache_failure_aborts (env : Env) (query : String) (st : St)
    (hcf : env.cacheFails = true)
    (hq : classify query ≠ "invalid_numeric") :
    lookup_company env query st = .error .backend := by
  simp only [lookup_company]
  rw [if_neg hq]
  simp [typo_stage, cache_get, hcf]

/-- Witness for C4 amended at the counterexample environment. -/
theorem C4_cache_failure_aborts_witness :
    lookup_company env4 "аптека" st_empty = .error .backend :=
  C4_cache_failure_aborts env4 "аптека" st_empty rfl (by decide)

/-! ### Claim C7: direct identifier flow -/

/-- C7: for a query classified as a valid identifier, with a healthy cache
backend and no cache hits, the lookup asks the authoritative FNS adapter
first; a nonempty answer resolves from its first row with source "fns" after
one network call; otherwise a nonempty Kontur answer resolves from its first
row with source "kontur" after exactly the two registry calls; otherwise the
outcome is NotFound. In every case the trace shows the registry calls only —
the agentic resolver (web search / reasoning adapter) is never invoked. -/
theorem C7_direct_flow (env : Env) (st0 : St) (query : String)
    (hcf : env.cacheFails = false)
    (hqt : classify query = "inn_legal" ∨ classify query = "inn_ip" ∨
           classify query = "ogrn" ∨ classify query = "ogrnip")
    (hmiss : ∀ k, lookupCache st0.cache k = none) :
    (∀ r rs e, env.fns query = (r :: rs, e) →
      ∃ st', lookup_company env query st0 =
          .ok (.resolved (build_candidate r "fns" 1 (normalize_name (orEmpty r.name_full))) "fns", st')
        ∧ st'.calls = st0.calls ++ [Call.fns query])
  ∧ (∀ e, env.fns query = ([], e) → ∀ k ks, env.kontur query = k :: ks →
      ∃ st', lookup_company env query st0 =
          .ok (.resolved (build_candidate k "kontur" 1 (normalize_name (orEmpty k.name_full))) "kontur", st')
        ∧ st'.calls = st0.calls ++ [Call.fns query, Call.kontur query])
  ∧ (∀ e, env.fns query = ([], e) → env.kontur query = [] →
      ∃ st', lookup_company env query st0 = .ok (.notFound, st')
        ∧ st'.calls = st0.calls ++ [Call.fns query, Call.kontur query]) := by
  have hqi : classify query ≠ "invalid_numeric" := by
    rcases hqt with h | h | h | h <;> rw [h] <;> decide
  have hT := typo_stage_miss env query st0 hcf (hmiss _)
  have hN := norm_stage_miss env (apply_typo_map query)
    ({ st0 with cache := setCache st0.cache (cache_key "typo" (pyStrip (pyLowerStr query))) (apply_typo_map query) }) hcf
    (by
      simp only [cache_key]
      rw [lookupCache_set_ne _ _ _ _ (@ne_of_fst_ne "normalize" "typo"
        (apply_typo_map query) (pyStrip (pyLowerStr query)) (by decide))]
      exact hmiss _)
  have hres : lookupCache
      (setCache (setCache st0.cache (cache_key "typo" (pyStrip (pyLowerStr query))) (apply_typo_map query))
        (cache_key "normalize" (apply_typo_map query))
        (normalize_name (apply_typo_map query)))
      (cache_key "resolve" (normalize_name (apply_typo_map query))) = none := by
    simp only [cache_key]
    rw [lookupCache_set_ne _ _ _ _ (@ne_of_fst_ne "resolve" "normalize"
        (normalize_name (apply_typo_map query)) (apply_typo_map query) (by decide)),
      lookupCache_set_ne _ _ _ _ (@ne_of_fst_ne "resolve" "typo"
        (normalize_name (apply_typo_map query)) (pyStrip (pyLowerStr query)) (by decide))]
    exact hmiss _
  refine ⟨?_, ?_, ?_⟩
  · intro r rs e hfns
    refine ⟨⟨setCache
        (setCache (setCache st0.cache (cache_key "typo" (pyStrip (pyLowerStr query))) (apply_typo_map query))
          (cache_key "normalize" (apply_typo_map query)) (normalize_name (apply_typo_map query)))
        (cache_key "resolve" (normalize_name (apply_typo_map query)))
        (innOrOgrn (build_candidate r "fns" 1 (normalize_name (orEmpty r.name_full)))),
      st0.calls ++ [Call.fns query]⟩, ?_, rfl⟩
    simp only [lookup_company, if_neg hqi, hT, hN, cache_get_ok env _ _ hcf, hres,
      truthy, callFns, hfns, if_pos hqt, cache_set_ok env _ _ _ _ hcf]
    simp [List.append_assoc]
  · intro e hfns k ks hkontur
    refine ⟨⟨setCache
        (setCache (setCache st0.cache (cache_key "typo" (pyStrip (pyLowerStr query))) (apply_typo_map query))
          (cache_key "normalize" (apply_typo_map query)) (normalize_name (apply_typo_map query)))
        (cache_key "resolve" (normalize_name (apply_typo_map query)))
        (innOrOgrn (build_candidate k "kontur" 1 (normalize_name (orEmpty k.name_full)))),
      st0.calls ++ [Call.fns query, Call.kontur query]⟩, ?_, rfl⟩
    simp only [lookup_company, if_neg hqi, hT, hN, cache_get_ok env _ _ hcf, hres,
      truthy, callFns, hfns, callKontur, hkontur, if_pos hqt,
      cache_set_ok env _ _ _ _ hcf]
    simp [List.append_assoc]
  · intro e hfns hkontur
    refine ⟨⟨setCache (setCache st0.cache (cache_key "typo" (pyStrip (pyLowerStr query))) (apply_typo_map query))
        (cache_key "normalize" (apply_typo_map query)) (normalize_name (apply_typo_map query)),
      st0.calls ++ [Call.fns query, Call.kontur query]⟩, ?_, rfl⟩
    simp only [lookup_company, if_neg hqi, hT, hN, cache_get_ok env _ _ hcf, hres,
      truthy, callFns, hfns, callKontur, hkontur, if_pos hqt]
    simp [List.append_assoc]

/-- Witness for C7: the scenario query "7707083893" (valid INN10) resolves
from the authoritative adapter's first row with a single registry call. -/
theorem C7_direct_flow_witness :
    ∃ st', lookup_company env7 "7707083893" st_empty =
        .ok (.resolved (build_candidate row7 "fns" 1 (normalize_name (orEmpty row7.name_full))) "fns", st')
      ∧ st'.calls = st_empty.calls ++ [Call.fns "7707083893"] :=
  (C7_direct_flow env7 st_empty "7707083893" rfl (Or.inl (by decide))
    (fun _ => rfl)).1 row7 [] none rfl

/-! ### Claim C2: resolve-cache round trip -/

/-- C2 counterexample: re-invoking the lookup on the equivalent query "acme"
with a resolve-cache hit does return a resolved outcome with source "cache",
but it issues a new network call to the authoritative adapter to re-fetch the
entity (the cache stores only the identifier, not the entity), so the
"without issuing any new network calls" part of the claim is false. -/
theorem C2_counterexample :
    (lookup_company env2 "acme" st2init).toOption.map (fun p => (p.1, p.2.calls)) =
      some (.resolved (build_candidate row7 "fns" 1 (normalize_name "gazprom")) "cache",
        [Call.fns "7707083893"]) ∧
    ([Call.fns "7707083893"] : List Call) ≠ [] := by
  exact ⟨rfl, by decide⟩

/-- C2 amended: a resolve-cache hit holding identifier `v` skips the whole
resolution step (no agentic call, no secondary-registry call, no direct-flow
dispatch) and returns an entity re-resolved from `v` with source "cache", at
the price of exactly one authoritative-adapter network call. -/
theorem C2_resolve_hit_refetches (env : Env) (st0 : St) (query v : String)
    (r : Row) (rs : List Row) (e : Option ErrKind)
    (hcf : env.cacheFails = false)
    (hqi : classify query ≠ "invalid_numeric")
    (hmt : lookupCache st0.cache (cache_key "typo" (pyStrip (pyLowerStr query))) = none)
    (hmn : lookupCache st0.cache (cache_key "normalize" (apply_typo_map query)) = none)
    (hhit : lookupCache st0.cache (cache_key "resolve" (normalize_name (apply_typo_map query))) = some v)
    (hv : v ≠ "")
    (hrows : env.fns v = (r :: rs, e)) :
    ∃ st', lookup_company env query st0 =
        .ok (.resolved (build_candidate r "fns" 1 (normalize_name (orEmpty r.name_full))) "cache", st')
      ∧ st'.calls = st0.calls ++ [Call.fns v] := by
  have hT := typo_stage_miss env query st0 hcf hmt
  have hN := norm_stage_miss env (apply_typo_map query)
    ({ st0 with cache := setCache st0.cache (cache_key "typo" (pyStrip (pyLowerStr query))) (apply_typo_map query) }) hcf
    (by
      simp only [cache_key]
      rw [lookupCache_set_ne _ _ _ _ (@ne_of_fst_ne "normalize" "typo"
        (apply_typo_map query) (pyStrip (pyLowerStr query)) (by decide))]
      exact hmn)
  have hres : lookupCache
      (setCache (setCache st0.cache (cache_key "typo" (pyStrip (pyLowerStr query))) (apply_typo_map query))
        (cache_key "normalize" (apply_typo_map query))
        (normalize_name (apply_typo_map query)))
      (cache_key "resolve" (normalize_name (apply_typo_map query))) = some v := by
    simp only [cache_key]
    rw [lookupCache_set_ne _ _ _ _ (@ne_of_fst_ne "resolve" "normalize"
        (normalize_name (apply_typo_map query)) (apply_typo_map query) (by decide)),
      lookupCache_set_ne _ _ _ _ (@ne_of_fst_ne "resolve" "typo"
        (normalize_name (apply_typo_map query)) (pyStrip (pyLowerStr query)) (by decide))]
    exact hhit
  refine ⟨⟨setCache (setCache st0.cache (cache_key "typo" (pyStrip (pyLowerStr query))) (apply_typo_map query))
      (cache_key "normalize" (apply_typo_map query)) (normalize_name (apply_typo_map query)),
    st0.calls ++ [Call.fns v]⟩, ?_, rfl⟩
  simp only [lookup_company, if_neg hqi, hT, hN, cache_get_ok env _ _ hcf, hres,
    truthy, orEmpty, resolve_inn_candidate, callFns, hrows]
  simp [hrows, hv]

/-- Witness for C2 amended, applied at the counterexample world. -/
theorem C2_resolve_hit_refetches_witness :
    ∃ st', lookup_company env2 "acme" st2init =
        .ok (.resolved (build_candidate row7 "fns" 1 (normalize_name (orEmpty row7.name_full))) "cache", st')
      ∧ st'.calls = st2init.calls ++ [Call.fns "7707083893"] :=
  C2_resolve_hit_refetches env2 st2init "acme" "7707083893" row7 [] none
    rfl (by decide) rfl rfl rfl (by decide) rfl

/-! ### Claim C10: name-flow disambiguation writes the resolve cache before
verifying the selected identifier -/

/-- C10: in the 2-3-candidate disambiguation branch, when the reasoning
adapter selects an INN, the resolve and llm_resolve caches are written before
the INN is verified against the authoritative adapter; when that verification
returns no rows the lookup continues and terminates with Disambiguate while
both caches still hold the unverified INN (which here even fails its
checksum) — cache state and outcome are not atomic. -/
theorem C10_cache_written_before_verification :
    (lookup_company env10 "roga" st_empty).toOption.map
        (fun p => (p.1, lookupCache p.2.cache (cache_key "resolve" "roga"),
          lookupCache p.2.cache (cache_key "llm_resolve" "roga;5555555555;6666666666"),
          p.2.calls)) =
      some (.disambiguate [build_candidate rowX "fns" (mkRat 7 10) "roga",
              build_candidate rowY "fns" (mkRat 7 10) "roga"],
        some "1234567890", some "1234567890",
        [Call.yandex "roga официальный сайт ИНН", Call.fns "roga",
         Call.dsResolve "roga", Call.fns "1234567890"]) ∧
    env10.fns "1234567890" = ([], none) ∧
    valid_company_number "1234567890" = false := by
  exact ⟨rfl, rfl, by decide⟩

end Nenastupi
